import Mathlib

/-! Shallow embedding of `src/server.py` (neobot): a FastAPI service keeping an
in-memory session store and exposing `start_session`, `explain`, `fix`,
`method_completion` and `get_full_explanation`, all backed by one upstream
text-generation call.  The Python dictionary `sessions` becomes an association
list, the `uuid.uuid4()` identifier and the network interaction become explicit
parameters (the latter an oracle mapping the prompt text to the upstream
outcome), and `raise HTTPException(...)` becomes an `Except` error value. -/

namespace Neobot

/-- One stored message, `{"role": ..., "content": ...}`. -/
structure Turn where
  role : String
  content : String
deriving DecidableEq, Repr

/-- One session record, `{"file_name": ..., "full_file": ..., "history": [...]}`. -/
structure Session where
  file_name : String
  full_file : String
  history : List Turn
deriving DecidableEq, Repr

/-- The process-wide `sessions` dictionary, keyed by session identifier. -/
abbrev Store := List (String × Session)

/-- Dictionary lookup: the value at the first matching key. -/
def Store.lookup : Store → String → Option Session
  | [], _ => none
  | (k, v) :: rest, sid => if k = sid then some v else Store.lookup rest sid

/-- Dictionary assignment `sessions[sid] = s`: replace the value at an existing
key in place, or append a new entry. -/
def Store.set : Store → String → Session → Store
  | [], sid, s => [(sid, s)]
  | (k, v) :: rest, sid, s =>
    if k = sid then (sid, s) :: rest else (k, v) :: Store.set rest sid s

/-- A `fastapi.HTTPException`: status code and detail message. -/
structure HTTPError where
  status_code : Nat
  detail : String
deriving DecidableEq, Repr

/-- Starlette renders `str(HTTPException(code, detail))` as the status code,
a colon and a space, then the detail. -/
def HTTPError.str (e : HTTPError) : String :=
  toString e.status_code ++ ": " ++ e.detail

/-- Body of `POST /start_session`. -/
structure StartSessionRequest where
  file_name : String
  full_file : String
deriving DecidableEq, Repr

/-- Body of the three snippet endpoints; `question` and `programming_lang`
default to `None`. -/
structure SnippetRequest where
  session_id : String
  snippet : String
  question : Option String := none
  programming_lang : Option String := none
deriving DecidableEq, Repr

/-- Python truthiness of an optional string field: `None` and the empty string
are falsy, so `if req.question:` runs its body only for a non-empty string. -/
def pyTruthy : Option String → Bool
  | none => false
  | some s => s != ""

/-- The upstream interaction, as an oracle from the prompt text that
`requests.post` sends to the outcome of the call: `.ok` the extracted
`candidates[0].content.parts[0].text`, or `.error` the `str(e)` of whatever
exception the request, status check or body extraction raised. -/
abbrev Upstream := String → Except String String

/-- `ai_response` (src/server.py lines 44-59): perform the outbound call and
extract the text field; any exception is re-raised as
`HTTPException(status_code=500, detail=str(e))`. -/
def ai_response (outcome : Upstream) (prompt_text : String) : Except HTTPError String :=
  match outcome prompt_text with
  | .ok text => .ok text
  | .error msg => .error ⟨500, msg⟩

/-- `start_session` (src/server.py lines 63-72); the fresh identifier produced
by `str(uuid.uuid4())` is passed in as `newId`.  Returns the updated store and
the response body's `session_id`. -/
def start_session (newId : String) (store : Store) (req : StartSessionRequest) :
    Store × String :=
  (store.set newId ⟨req.file_name, req.full_file, []⟩, newId)

/-- The prompt `explain` builds (src/server.py lines 82-91): instruction text
and snippet, then the question hint when truthy, then the language hint
prepended when truthy, then the stored full file, then every history turn. -/
def explainPrompt (req : SnippetRequest) (session : Session) : String :=
  let prompt := "Explain the following code snippet in context of the full file in concisely:\n"
    ++ req.snippet ++ "\n"
  let prompt := if pyTruthy req.question then
    prompt ++ "Question: " ++ req.question.getD "" ++ "\n" else prompt
  let prompt := if pyTruthy req.programming_lang then
    "Programming language: " ++ req.programming_lang.getD "" ++ "\n" ++ prompt else prompt
  let prompt := prompt ++ "\nFull file:\n" ++ session.full_file ++ "\n\n"
  session.history.foldl (fun p h => p ++ h.role ++ ":\n" ++ h.content ++ "\n") prompt

/-- `POST /explain` (src/server.py lines 74-100): 404 when the session is
unknown; otherwise build the prompt, call upstream (no local `try`, so the
helper's 500 propagates as is), then append the user and assistant turns and
return the explanation. -/
def explain (outcome : Upstream) (store : Store) (req : SnippetRequest) :
    Except HTTPError (Store × String) :=
  match store.lookup req.session_id with
  | none => .error ⟨404, "Session not found"⟩
  | some session =>
    match ai_response outcome (explainPrompt req session) with
    | .error e => .error e
    | .ok explanation =>
      .ok (store.set req.session_id
        { session with history := session.history ++
            [⟨"user", req.snippet⟩, ⟨"assistant", explanation⟩] },
        explanation)

/-- The prompt `fix` builds (src/server.py lines 109-114). -/
def fixPrompt (req : SnippetRequest) : String :=
  let prompt := "Fix any bugs in the following code snippet:\n\n```\n" ++ req.snippet ++ "\n```\n\n"
  let prompt := if pyTruthy req.programming_lang then
    "Programming language: " ++ req.programming_lang.getD "" ++ "\n\n" ++ prompt else prompt
  prompt ++ "Return only the corrected code snippet."

/-- `POST /fix` (src/server.py lines 102-124): 404 when the session is unknown;
the upstream call sits in a `try` whose handler re-raises
`HTTPException(500, f"Error: {str(e)}")` around the helper's own exception;
on success append the user and assistant turns and return the fixed code. -/
def fix (outcome : Upstream) (store : Store) (req : SnippetRequest) :
    Except HTTPError (Store × String) :=
  match store.lookup req.session_id with
  | none => .error ⟨404, "Session not found"⟩
  | some session =>
    match ai_response outcome (fixPrompt req) with
    | .error e => .error ⟨500, "Error: " ++ e.str⟩
    | .ok fixed_code =>
      .ok (store.set req.session_id
        { session with history := session.history ++
            [⟨"user", req.snippet⟩, ⟨"assistant", fixed_code⟩] },
        fixed_code)

/-- The joined assistant contents of a history,
`"\n\n".join([h["content"] for h in history if h["role"]=="assistant"])`. -/
def fullExp (history : List Turn) : String :=
  String.intercalate "\n\n"
    ((history.filter fun h => h.role == "assistant").map fun h => h.content)

/-- `POST /get_full_explanation` (src/server.py lines 125-131): 404 when the
session is unknown, else the joined assistant contents; the store is returned
unchanged. -/
def get_full_explanation (store : Store) (session_id : String) :
    Except HTTPError (Store × String) :=
  match store.lookup session_id with
  | none => .error ⟨404, "Session not found"⟩
  | some session => .ok (store, fullExp session.history)

/-- The prompt `method_completion` builds (src/server.py lines 142-145). -/
def methodCompletionPrompt (req : SnippetRequest) (session : Session) : String :=
  let prompt := "Complete the following method within the context of the code:\n"
    ++ req.snippet ++ "\n\nFull context:\n" ++ session.full_file ++ "\n"
  let prompt := if pyTruthy req.programming_lang then
    "Programming language: " ++ req.programming_lang.getD "" ++ "\n" ++ prompt else prompt
  prompt ++ "\nReturn only the completed method implementation."

/-- `POST /method_completion` (src/server.py lines 133-156): 404 when the
session is unknown; the upstream call sits in a `try` whose handler re-raises
`HTTPException(500, f"Error: {str(e)}")`; on success append the user and
assistant turns and return the completed method. -/
def method_completion (outcome : Upstream) (store : Store) (req : SnippetRequest) :
    Except HTTPError (Store × String) :=
  match store.lookup req.session_id with
  | none => .error ⟨404, "Session not found"⟩
  | some session =>
    match ai_response outcome (methodCompletionPrompt req session) with
    | .error e => .error ⟨500, "Error: " ++ e.str⟩
    | .ok completed_method =>
      .ok (store.set req.session_id
        { session with history := session.history ++
            [⟨"user", req.snippet⟩, ⟨"assistant", completed_method⟩] },
        completed_method)

/-- The store an endpoint call leaves behind: on an error response the store is
untouched. -/
def resultStore (r : Except HTTPError (Store × String)) (store : Store) : Store :=
  match r with
  | .ok (s, _) => s
  | .error _ => store

/-- One inbound request, for stating properties uniformly over the service's
five operations. -/
inductive Op where
  | startSessionCall (newId : String) (req : StartSessionRequest)
  | explainCall (outcome : Upstream) (req : SnippetRequest)
  | fixCall (outcome : Upstream) (req : SnippetRequest)
  | methodCompletionCall (outcome : Upstream) (req : SnippetRequest)
  | getFullExplanationCall (session_id : String)

/-- The store after handling one request, whether it succeeds or fails. -/
def Op.apply (op : Op) (store : Store) : Store :=
  match op with
  | .startSessionCall newId req => (start_session newId store req).1
  | .explainCall outcome req => resultStore (explain outcome store req) store
  | .fixCall outcome req => resultStore (fix outcome store req) store
  | .methodCompletionCall outcome req => resultStore (method_completion outcome store req) store
  | .getFullExplanationCall session_id => resultStore (get_full_explanation store session_id) store

/-- `uuid.uuid4()` is modelled as an arbitrary identifier; its contract is
that a start-session call draws one not already in use. -/
def Op.fresh (op : Op) (store : Store) : Prop :=
  match op with
  | .startSessionCall newId _ => store.lookup newId = none
  | _ => True

/-- The history recorded for an identifier, empty when the identifier is
unknown. -/
def historyAt (store : Store) (sid : String) : List Turn :=
  match store.lookup sid with
  | some s => s.history
  | none => []

/-- Spec-side description of an optional hint segment of the prompt: present
exactly when the field is supplied and non-empty, absent otherwise. -/
def optionalSegment (field : Option String) (pre tail : String) : String :=
  match field with
  | none => ""
  | some s => if s = "" then "" else pre ++ s ++ tail

/-- Spec-side description of the history tail of the explain prompt: the role
and content of every prior turn, in order. -/
def historySegment : List Turn → String
  | [] => ""
  | t :: rest => t.role ++ ":\n" ++ t.content ++ "\n" ++ historySegment rest

theorem lookup_set_self (store : Store) (sid : String) (s : Session) :
    (store.set sid s).lookup sid = some s := by
  induction store with
  | nil => simp [Store.set, Store.lookup]
  | cons kv rest ih =>
    obtain ⟨k, v⟩ := kv
    by_cases hk : k = sid
    · simp [Store.set, hk, Store.lookup]
    · simp [Store.set, hk, Store.lookup, ih]

theorem lookup_set_ne (store : Store) (sid other : String) (s : Session)
    (h : other ≠ sid) : (store.set sid s).lookup other = store.lookup other := by
  have hns : sid ≠ other := fun hh => h hh.symm
  induction store with
  | nil => simp [Store.set, Store.lookup, hns]
  | cons kv rest ih =>
    obtain ⟨k, v⟩ := kv
    by_cases hk : k = sid
    · subst hk
      simp [Store.set, Store.lookup, hns]
    · simp only [Store.set, if_neg hk, Store.lookup]
      by_cases hko : k = other
      · simp [hko]
      · simp [hko, ih]

theorem keys_set_of_lookup (store : Store) (sid : String) (s v : Session)
    (h : store.lookup sid = some v) :
    (store.set sid s).map Prod.fst = store.map Prod.fst := by
  induction store with
  | nil => simp [Store.lookup] at h
  | cons kv rest ih =>
    obtain ⟨k, w⟩ := kv
    by_cases hk : k = sid
    · simp [Store.set, hk]
    · simp only [Store.lookup, if_neg hk] at h
      simp [Store.set, hk, ih h]

theorem lookup_isSome_of_eq (store : Store) (sid : String) (s : Session)
    (h : store.lookup sid = some s) :
    (store.lookup sid).isSome = true ∧ s.history <+: historyAt store sid := by
  refine ⟨by simp [h], ?_⟩
  simp [historyAt, h]

theorem set_append_case (store : Store) (sid reqSid : String) (s sess : Session)
    (newTurns : List Turn) (h : store.lookup sid = some s)
    (hl : store.lookup reqSid = some sess) :
    ((store.set reqSid ⟨sess.file_name, sess.full_file,
        sess.history ++ newTurns⟩).lookup sid).isSome = true ∧
    s.history <+: historyAt
      (store.set reqSid ⟨sess.file_name, sess.full_file, sess.history ++ newTurns⟩) sid := by
  by_cases hsid : sid = reqSid
  · subst hsid
    rw [h] at hl
    obtain rfl : s = sess := Option.some.inj hl
    rw [lookup_set_self] at *
    refine ⟨rfl, ?_⟩
    simp [historyAt, lookup_set_self]
  · rw [lookup_set_ne store reqSid sid _ hsid]
    refine ⟨by simp [h], ?_⟩
    simp [historyAt, lookup_set_ne store reqSid sid _ hsid, h]

/-- Claim C3: `start_session` hands back the generated identifier, and looking
that identifier up afterwards yields a session holding exactly the submitted
file name and file text and an empty history. -/
theorem start_session_creates_fresh_record (store : Store) (newId : String)
    (req : StartSessionRequest) :
    (start_session newId store req).2 = newId ∧
    (start_session newId store req).1.lookup newId =
      some ⟨req.file_name, req.full_file, []⟩ :=
  ⟨rfl, lookup_set_self store newId _⟩

/-- Claim C9: `get_full_explanation` never modifies the session store, known or
unknown identifier alike, so repeating the call yields the same result. -/
theorem get_full_explanation_pure (store : Store) (sid : String) :
    Op.apply (.getFullExplanationCall sid) store = store ∧
    get_full_explanation (Op.apply (.getFullExplanationCall sid) store) sid =
      get_full_explanation store sid := by
  have happ : Op.apply (.getFullExplanationCall sid) store = store := by
    cases hl : store.lookup sid <;>
      simp [Op.apply, resultStore, get_full_explanation, hl]
  exact ⟨happ, by rw [happ]⟩

/-- Claim C2: a request whose `session_id` is not a key of the store fails with
HTTP 404 "Session not found" on all four session endpoints, whatever the other
fields hold, and the store is left untouched. -/
theorem unknown_session_not_found (outcome : Upstream) (store : Store)
    (req : SnippetRequest) (h : store.lookup req.session_id = none) :
    explain outcome store req = .error ⟨404, "Session not found"⟩ ∧
    fix outcome store req = .error ⟨404, "Session not found"⟩ ∧
    method_completion outcome store req = .error ⟨404, "Session not found"⟩ ∧
    get_full_explanation store req.session_id = .error ⟨404, "Session not found"⟩ ∧
    Op.apply (.explainCall outcome req) store = store ∧
    Op.apply (.fixCall outcome req) store = store ∧
    Op.apply (.methodCompletionCall outcome req) store = store ∧
    Op.apply (.getFullExplanationCall req.session_id) store = store := by
  simp [explain, fix, method_completion, get_full_explanation, Op.apply, resultStore, h]

/-- Witness for claim C2 at a concrete garbage identifier against the empty
store. -/
theorem unknown_session_not_found_witness :
    explain (fun _ => .ok "t") [] ⟨"garbage", "x", some "q", some "py"⟩ =
      .error ⟨404, "Session not found"⟩ ∧
    fix (fun _ => .ok "t") [] ⟨"garbage", "x", some "q", some "py"⟩ =
      .error ⟨404, "Session not found"⟩ ∧
    method_completion (fun _ => .ok "t") [] ⟨"garbage", "x", some "q", some "py"⟩ =
      .error ⟨404, "Session not found"⟩ ∧
    get_full_explanation [] "garbage" = .error ⟨404, "Session not found"⟩ ∧
    Op.apply (.explainCall (fun _ => .ok "t") ⟨"garbage", "x", some "q", some "py"⟩) [] = [] ∧
    Op.apply (.fixCall (fun _ => .ok "t") ⟨"garbage", "x", some "q", some "py"⟩) [] = [] ∧
    Op.apply (.methodCompletionCall (fun _ => .ok "t")
      ⟨"garbage", "x", some "q", some "py"⟩) [] = [] ∧
    Op.apply (.getFullExplanationCall "garbage") [] = [] :=
  unknown_session_not_found (fun _ => .ok "t") [] ⟨"garbage", "x", some "q", some "py"⟩ rfl

/-- Claim C1: a successful `explain`, `fix` or `method_completion` call on an
existing session appends exactly two turns at the end of its history, first the
user turn carrying the submitted snippet and then the assistant turn carrying
the upstream text, and the response body carries that same assistant text. -/
theorem history_appends_user_then_assistant (outcome : Upstream) (store : Store)
    (req : SnippetRequest) (session : Session) (text : String)
    (h : store.lookup req.session_id = some session)
    (hup : ∀ p, outcome p = Except.ok text) :
    ∀ f, (f = explain ∨ f = fix ∨ f = method_completion) →
      f outcome store req =
        .ok (store.set req.session_id
          ⟨session.file_name, session.full_file,
            session.history ++ [⟨"user", req.snippet⟩, ⟨"assistant", text⟩]⟩, text) ∧
      (store.set req.session_id
        ⟨session.file_name, session.full_file,
          session.history ++ [⟨"user", req.snippet⟩, ⟨"assistant", text⟩]⟩).lookup
          req.session_id =
        some ⟨session.file_name, session.full_file,
          session.history ++ [⟨"user", req.snippet⟩, ⟨"assistant", text⟩]⟩ := by
  rintro f (rfl | rfl | rfl) <;>
    exact ⟨by simp [explain, fix, method_completion, ai_response, h, hup],
      lookup_set_self _ _ _⟩

/-- Witness for claim C1: the spec's own example, an explain call whose
upstream answer is "prints 1". -/
theorem history_appends_user_then_assistant_witness :
    explain (fun _ => Except.ok "prints 1") [("s", ⟨"a.py", "print(1)", []⟩)]
        ⟨"s", "print(1)", none, none⟩ =
      .ok (Store.set [("s", ⟨"a.py", "print(1)", []⟩)] "s"
        ⟨"a.py", "print(1)", [⟨"user", "print(1)"⟩, ⟨"assistant", "prints 1"⟩]⟩,
        "prints 1") ∧
    Store.lookup (Store.set [("s", ⟨"a.py", "print(1)", []⟩)] "s"
        ⟨"a.py", "print(1)", [⟨"user", "print(1)"⟩, ⟨"assistant", "prints 1"⟩]⟩) "s" =
      some ⟨"a.py", "print(1)", [⟨"user", "print(1)"⟩, ⟨"assistant", "prints 1"⟩]⟩ :=
  history_appends_user_then_assistant (fun _ => Except.ok "prints 1")
    [("s", ⟨"a.py", "print(1)", []⟩)] ⟨"s", "print(1)", none, none⟩
    ⟨"a.py", "print(1)", []⟩ "prints 1" rfl (fun _ => rfl) explain (Or.inl rfl)

/-- Claim C5: when the upstream call fails, every snippet endpoint aborts with
an HTTP 500 error and the store, in particular the session's history, is left
exactly as it was. -/
theorem upstream_failure_aborts_unchanged (outcome : Upstream) (store : Store)
    (req : SnippetRequest) (session : Session) (msg : String)
    (h : store.lookup req.session_id = some session)
    (hup : ∀ p, outcome p = Except.error msg) :
    explain outcome store req = .error ⟨500, msg⟩ ∧
    fix outcome store req = .error ⟨500, "Error: " ++ HTTPError.str ⟨500, msg⟩⟩ ∧
    method_completion outcome store req =
      .error ⟨500, "Error: " ++ HTTPError.str ⟨500, msg⟩⟩ ∧
    Op.apply (.explainCall outcome req) store = store ∧
    Op.apply (.fixCall outcome req) store = store ∧
    Op.apply (.methodCompletionCall outcome req) store = store := by
  simp [explain, fix, method_completion, ai_response, Op.apply, resultStore, h, hup,
    HTTPError.str]

/-- Witness for claim C5 at a concrete session and a failing upstream call. -/
theorem upstream_failure_aborts_unchanged_witness :
    explain (fun _ => Except.error "boom") [("s", ⟨"a.py", "print(1)", []⟩)]
        ⟨"s", "x", none, none⟩ = .error ⟨500, "boom"⟩ ∧
    fix (fun _ => Except.error "boom") [("s", ⟨"a.py", "print(1)", []⟩)]
        ⟨"s", "x", none, none⟩ =
      .error ⟨500, "Error: " ++ HTTPError.str ⟨500, "boom"⟩⟩ ∧
    method_completion (fun _ => Except.error "boom") [("s", ⟨"a.py", "print(1)", []⟩)]
        ⟨"s", "x", none, none⟩ =
      .error ⟨500, "Error: " ++ HTTPError.str ⟨500, "boom"⟩⟩ ∧
    Op.apply (.explainCall (fun _ => Except.error "boom") ⟨"s", "x", none, none⟩)
      [("s", ⟨"a.py", "print(1)", []⟩)] = [("s", ⟨"a.py", "print(1)", []⟩)] ∧
    Op.apply (.fixCall (fun _ => Except.error "boom") ⟨"s", "x", none, none⟩)
      [("s", ⟨"a.py", "print(1)", []⟩)] = [("s", ⟨"a.py", "print(1)", []⟩)] ∧
    Op.apply (.methodCompletionCall (fun _ => Except.error "boom") ⟨"s", "x", none, none⟩)
      [("s", ⟨"a.py", "print(1)", []⟩)] = [("s", ⟨"a.py", "print(1)", []⟩)] :=
  upstream_failure_aborts_unchanged (fun _ => Except.error "boom")
    [("s", ⟨"a.py", "print(1)", []⟩)] ⟨"s", "x", none, none⟩
    ⟨"a.py", "print(1)", []⟩ "boom" rfl (fun _ => rfl)

/-- Claim C4: on an existing session `get_full_explanation` answers the
blank-line-separated concatenation, in history order, of the contents of
exactly the assistant turns; turns with role "user" have no effect on the
result, wherever they sit in the history. -/
theorem full_explanation_joins_assistant_turns (store : Store) (sid : String)
    (session : Session) (h : store.lookup sid = some session) :
    get_full_explanation store sid =
      .ok (store, String.intercalate "\n\n"
        ((session.history.filter fun t => t.role == "assistant").map
          fun t => t.content)) ∧
    ∀ l₁ l₂ c, fullExp (l₁ ++ ⟨"user", c⟩ :: l₂) = fullExp (l₁ ++ l₂) := by
  constructor
  · simp [get_full_explanation, h, fullExp]
  · intro l₁ l₂ c
    simp [fullExp, List.filter_append]

/-- Witness for claim C4 on a history interleaving user and assistant turns. -/
theorem full_explanation_joins_assistant_turns_witness :
    get_full_explanation
        [("s", ⟨"a.py", "f", [⟨"user", "u1"⟩, ⟨"assistant", "a1"⟩,
          ⟨"user", "u2"⟩, ⟨"assistant", "a2"⟩]⟩)] "s" =
      .ok ([("s", ⟨"a.py", "f", [⟨"user", "u1"⟩, ⟨"assistant", "a1"⟩,
          ⟨"user", "u2"⟩, ⟨"assistant", "a2"⟩]⟩)],
        String.intercalate "\n\n"
          ((([⟨"user", "u1"⟩, ⟨"assistant", "a1"⟩, ⟨"user", "u2"⟩,
              ⟨"assistant", "a2"⟩] : List Turn).filter
            fun t => t.role == "assistant").map fun t => t.content)) ∧
    ∀ l₁ l₂ c, fullExp (l₁ ++ ⟨"user", c⟩ :: l₂) = fullExp (l₁ ++ l₂) :=
  full_explanation_joins_assistant_turns
    [("s", ⟨"a.py", "f", [⟨"user", "u1"⟩, ⟨"assistant", "a1"⟩,
      ⟨"user", "u2"⟩, ⟨"assistant", "a2"⟩]⟩)] "s"
    ⟨"a.py", "f", [⟨"user", "u1"⟩, ⟨"assistant", "a1"⟩,
      ⟨"user", "u2"⟩, ⟨"assistant", "a2"⟩]⟩ rfl

/-- Claim C8: every operation, successful or failed, leaves the prior history
of every existing session as a prefix of that session's history afterwards;
for `start_session` the generated identifier is fresh, as `uuid.uuid4()`
promises. -/
theorem history_append_only (op : Op) (store : Store) (sid : String) (s : Session)
    (hfresh : op.fresh store) (h : store.lookup sid = some s) :
    ((op.apply store).lookup sid).isSome = true ∧
    s.history <+: historyAt (op.apply store) sid := by
  cases op with
  | startSessionCall newId req =>
    have hfr : store.lookup newId = none := hfresh
    have hne : sid ≠ newId := by
      intro he
      rw [he, hfr] at h
      cases h
    have hst : Op.apply (.startSessionCall newId req) store =
        store.set newId ⟨req.file_name, req.full_file, []⟩ := rfl
    rw [hst, lookup_set_ne store newId sid _ hne]
    refine ⟨by simp [h], ?_⟩
    simp [historyAt, lookup_set_ne store newId sid _ hne, h]
  | explainCall outcome req =>
    cases hl : store.lookup req.session_id with
    | none =>
      have hst : Op.apply (.explainCall outcome req) store = store := by
        simp [Op.apply, explain, resultStore, hl]
      rw [hst]
      exact lookup_isSome_of_eq store sid s h
    | some sess =>
      cases ho : outcome (explainPrompt req sess) with
      | error m =>
        have hst : Op.apply (.explainCall outcome req) store = store := by
          simp [Op.apply, explain, resultStore, ai_response, hl, ho]
        rw [hst]
        exact lookup_isSome_of_eq store sid s h
      | ok t =>
        have hst : Op.apply (.explainCall outcome req) store =
            store.set req.session_id ⟨sess.file_name, sess.full_file,
              sess.history ++ [⟨"user", req.snippet⟩, ⟨"assistant", t⟩]⟩ := by
          simp [Op.apply, explain, resultStore, ai_response, hl, ho]
        rw [hst]
        exact set_append_case store sid req.session_id s sess _ h hl
  | fixCall outcome req =>
    cases hl : store.lookup req.session_id with
    | none =>
      have hst : Op.apply (.fixCall outcome req) store = store := by
        simp [Op.apply, fix, resultStore, hl]
      rw [hst]
      exact lookup_isSome_of_eq store sid s h
    | some sess =>
      cases ho : outcome (fixPrompt req) with
      | error m =>
        have hst : Op.apply (.fixCall outcome req) store = store := by
          simp [Op.apply, fix, resultStore, ai_response, hl, ho]
        rw [hst]
        exact lookup_isSome_of_eq store sid s h
      | ok t =>
        have hst : Op.apply (.fixCall outcome req) store =
            store.set req.session_id ⟨sess.file_name, sess.full_file,
              sess.history ++ [⟨"user", req.snippet⟩, ⟨"assistant", t⟩]⟩ := by
          simp [Op.apply, fix, resultStore, ai_response, hl, ho]
        rw [hst]
        exact set_append_case store sid req.session_id s sess _ h hl
  | methodCompletionCall outcome req =>
    cases hl : store.lookup req.session_id with
    | none =>
      have hst : Op.apply (.methodCompletionCall outcome req) store = store := by
        simp [Op.apply, method_completion, resultStore, hl]
      rw [hst]
      exact lookup_isSome_of_eq store sid s h
    | some sess =>
      cases ho : outcome (methodCompletionPrompt req sess) with
      | error m =>
        have hst : Op.apply (.methodCompletionCall outcome req) store = store := by
          simp [Op.apply, method_completion, resultStore, ai_response, hl, ho]
        rw [hst]
        exact lookup_isSome_of_eq store sid s h
      | ok t =>
        have hst : Op.apply (.methodCompletionCall outcome req) store =
            store.set req.session_id ⟨sess.file_name, sess.full_file,
              sess.history ++ [⟨"user", req.snippet⟩, ⟨"assistant", t⟩]⟩ := by
          simp [Op.apply, method_completion, resultStore, ai_response, hl, ho]
        rw [hst]
        exact set_append_case store sid req.session_id s sess _ h hl
  | getFullExplanationCall qsid =>
    have hst : Op.apply (.getFullExplanationCall qsid) store = store :=
      (get_full_explanation_pure store qsid).1
    rw [hst]
    exact lookup_isSome_of_eq store sid s h

/-- Witness for claim C8: a start-session call with a fresh identifier next to
an existing session with recorded history. -/
theorem history_append_only_witness :
    ((Op.apply (.startSessionCall "t" ⟨"b.py", "pass"⟩)
        [("s", ⟨"a.py", "print(1)", [⟨"user", "x"⟩]⟩)]).lookup "s").isSome = true ∧
    [(⟨"user", "x"⟩ : Turn)] <+: historyAt
      (Op.apply (.startSessionCall "t" ⟨"b.py", "pass"⟩)
        [("s", ⟨"a.py", "print(1)", [⟨"user", "x"⟩]⟩)]) "s" :=
  history_append_only (.startSessionCall "t" ⟨"b.py", "pass"⟩)
    [("s", ⟨"a.py", "print(1)", [⟨"user", "x"⟩]⟩)] "s"
    ⟨"a.py", "print(1)", [⟨"user", "x"⟩]⟩ rfl rfl

/-- Claim C10: a successful snippet call on a session changes only that
session's history: its file name and file text are kept, every other
identifier resolves as before, the key set is unchanged, and the optional
question hint influences the prompt only, never the stored turns or the
resulting store. -/
theorem success_frames_only_history (outcome : Upstream) (store : Store)
    (req : SnippetRequest) (session : Session) (text : String)
    (h : store.lookup req.session_id = some session)
    (hup : ∀ p, outcome p = Except.ok text) :
    ∀ f, (f = explain ∨ f = fix ∨ f = method_completion) →
      resultStore (f outcome store req) store =
        store.set req.session_id ⟨session.file_name, session.full_file,
          session.history ++ [⟨"user", req.snippet⟩, ⟨"assistant", text⟩]⟩ ∧
      (∀ other, other ≠ req.session_id →
        (resultStore (f outcome store req) store).lookup other = store.lookup other) ∧
      (resultStore (f outcome store req) store).map Prod.fst = store.map Prod.fst ∧
      ∀ q, resultStore
          (f outcome store ⟨req.session_id, req.snippet, q, req.programming_lang⟩) store =
        resultStore (f outcome store req) store := by
  have core : ∀ g, (g = explain ∨ g = fix ∨ g = method_completion) →
      ∀ rq : SnippetRequest, rq.session_id = req.session_id →
      resultStore (g outcome store rq) store =
        store.set req.session_id ⟨session.file_name, session.full_file,
          session.history ++ [⟨"user", rq.snippet⟩, ⟨"assistant", text⟩]⟩ := by
    rintro g (rfl | rfl | rfl) rq hrq <;>
      simp [explain, fix, method_completion, resultStore, ai_response, hrq, h, hup]
  intro f hf
  have hst := core f hf req rfl
  refine ⟨hst, fun other hne => ?_, ?_, fun q => ?_⟩
  · rw [hst]
    exact lookup_set_ne store req.session_id other _ hne
  · rw [hst]
    exact keys_set_of_lookup store req.session_id _ session h
  · exact (core f hf ⟨req.session_id, req.snippet, q, req.programming_lang⟩ rfl).trans
      hst.symm

/-- Witness for claim C10: an explain call with question and language hints on
a store holding a second, untouched session. -/
theorem success_frames_only_history_witness :
    resultStore (explain (fun _ => Except.ok "prints 1")
        [("s", ⟨"a.py", "print(1)", []⟩), ("t", ⟨"b.py", "x", []⟩)]
        ⟨"s", "print(1)", some "why", some "py"⟩)
        [("s", ⟨"a.py", "print(1)", []⟩), ("t", ⟨"b.py", "x", []⟩)] =
      Store.set [("s", ⟨"a.py", "print(1)", []⟩), ("t", ⟨"b.py", "x", []⟩)] "s"
        ⟨"a.py", "print(1)", [⟨"user", "print(1)"⟩, ⟨"assistant", "prints 1"⟩]⟩ ∧
    (∀ other, other ≠ "s" →
      (resultStore (explain (fun _ => Except.ok "prints 1")
          [("s", ⟨"a.py", "print(1)", []⟩), ("t", ⟨"b.py", "x", []⟩)]
          ⟨"s", "print(1)", some "why", some "py"⟩)
          [("s", ⟨"a.py", "print(1)", []⟩), ("t", ⟨"b.py", "x", []⟩)]).lookup other =
        Store.lookup [("s", ⟨"a.py", "print(1)", []⟩), ("t", ⟨"b.py", "x", []⟩)] other) ∧
    (resultStore (explain (fun _ => Except.ok "prints 1")
        [("s", ⟨"a.py", "print(1)", []⟩), ("t", ⟨"b.py", "x", []⟩)]
        ⟨"s", "print(1)", some "why", some "py"⟩)
        [("s", ⟨"a.py", "print(1)", []⟩), ("t", ⟨"b.py", "x", []⟩)]).map Prod.fst =
      ([("s", ⟨"a.py", "print(1)", []⟩), ("t", ⟨"b.py", "x", []⟩)] : Store).map Prod.fst ∧
    ∀ q, resultStore (explain (fun _ => Except.ok "prints 1")
        [("s", ⟨"a.py", "print(1)", []⟩), ("t", ⟨"b.py", "x", []⟩)]
        ⟨"s", "print(1)", q, some "py"⟩)
        [("s", ⟨"a.py", "print(1)", []⟩), ("t", ⟨"b.py", "x", []⟩)] =
      resultStore (explain (fun _ => Except.ok "prints 1")
        [("s", ⟨"a.py", "print(1)", []⟩), ("t", ⟨"b.py", "x", []⟩)]
        ⟨"s", "print(1)", some "why", some "py"⟩)
        [("s", ⟨"a.py", "print(1)", []⟩), ("t", ⟨"b.py", "x", []⟩)] :=
  success_frames_only_history (fun _ => Except.ok "prints 1")
    [("s", ⟨"a.py", "print(1)", []⟩), ("t", ⟨"b.py", "x", []⟩)]
    ⟨"s", "print(1)", some "why", some "py"⟩ ⟨"a.py", "print(1)", []⟩ "prints 1"
    rfl (fun _ => rfl) explain (Or.inl rfl)

/-- Claim C6 counterexample: on a failing upstream call `fix` answers HTTP 500
whose detail is not the underlying exception text itself but that text wrapped
as the string form of the helper's own HTTP exception behind an "Error: "
prefix. -/
theorem fix_error_detail_counterexample :
    fix (fun _ => .error "boom") [("s", ⟨"a.py", "print(1)", []⟩)]
        ⟨"s", "x", none, none⟩ = .error ⟨500, "Error: 500: boom"⟩ ∧
    "Error: 500: boom" ≠ "boom" :=
  ⟨rfl, by decide⟩

/-- Claim C6 (amended): every error of the three snippet endpoints is either
HTTP 404 "Session not found" or HTTP 500 for a failed upstream call; `explain`
surfaces the underlying exception text as the detail, while `fix` and
`method_completion` surface "Error: " followed by the string form, status code
included, of the HTTP exception the helper raised around it. -/
theorem error_kinds_amended (outcome : Upstream) (store : Store) (req : SnippetRequest)
    (e : HTTPError)
    (f : Upstream → Store → SnippetRequest → Except HTTPError (Store × String))
    (hf : f = explain ∨ f = fix ∨ f = method_completion)
    (he : f outcome store req = .error e) :
    e = ⟨404, "Session not found"⟩ ∨
    ∃ msg, (∃ p, outcome p = Except.error msg) ∧
      ((f = explain ∧ e = ⟨500, msg⟩) ∨
       ((f = fix ∨ f = method_completion) ∧
        e = ⟨500, "Error: " ++ HTTPError.str ⟨500, msg⟩⟩)) := by
  rcases hf with rfl | rfl | rfl
  · cases hl : store.lookup req.session_id with
    | none =>
      simp [explain, hl] at he
      exact Or.inl he.symm
    | some sess =>
      cases ho : outcome (explainPrompt req sess) with
      | ok t => simp [explain, ai_response, hl, ho] at he
      | error m =>
        simp [explain, ai_response, hl, ho] at he
        exact Or.inr ⟨m, ⟨_, ho⟩, Or.inl ⟨rfl, he.symm⟩⟩
  · cases hl : store.lookup req.session_id with
    | none =>
      simp [fix, hl] at he
      exact Or.inl he.symm
    | some sess =>
      cases ho : outcome (fixPrompt req) with
      | ok t => simp [fix, ai_response, hl, ho] at he
      | error m =>
        simp [fix, ai_response, hl, ho] at he
        exact Or.inr ⟨m, ⟨_, ho⟩, Or.inr ⟨Or.inl rfl, he.symm⟩⟩
  · cases hl : store.lookup req.session_id with
    | none =>
      simp [method_completion, hl] at he
      exact Or.inl he.symm
    | some sess =>
      cases ho : outcome (methodCompletionPrompt req sess) with
      | ok t => simp [method_completion, ai_response, hl, ho] at he
      | error m =>
        simp [method_completion, ai_response, hl, ho] at he
        exact Or.inr ⟨m, ⟨_, ho⟩, Or.inr ⟨Or.inr rfl, he.symm⟩⟩

/-- Witness for the amended claim C6: a concrete failing fix call. -/
theorem error_kinds_amended_witness :
    (⟨500, "Error: " ++ HTTPError.str ⟨500, "boom"⟩⟩ : HTTPError) =
      ⟨404, "Session not found"⟩ ∨
    ∃ msg, (∃ p, (fun _ => Except.error "boom" : Upstream) p = Except.error msg) ∧
      (((fix : Upstream → Store → SnippetRequest → Except HTTPError (Store × String))
          = explain ∧
        (⟨500, "Error: " ++ HTTPError.str ⟨500, "boom"⟩⟩ : HTTPError) = ⟨500, msg⟩) ∨
       ((fix = fix ∨ fix = method_completion) ∧
        (⟨500, "Error: " ++ HTTPError.str ⟨500, "boom"⟩⟩ : HTTPError) =
          ⟨500, "Error: " ++ HTTPError.str ⟨500, msg⟩⟩)) :=
  error_kinds_amended (fun _ => Except.error "boom") [("s", ⟨"a.py", "print(1)", []⟩)]
    ⟨"s", "x", none, none⟩ ⟨500, "Error: " ++ HTTPError.str ⟨500, "boom"⟩⟩ fix
    (Or.inr (Or.inl rfl)) rfl

theorem foldl_history (l : List Turn) (acc : String) :
    l.foldl (fun p h => p ++ h.role ++ ":\n" ++ h.content ++ "\n") acc =
      acc ++ historySegment l := by
  induction l generalizing acc with
  | nil => simp [historySegment]
  | cons t rest ih =>
    rw [List.foldl_cons, ih, historySegment]
    simp [String.append_assoc]

theorem question_if (q : Option String) (prompt : String) :
    (if pyTruthy q then prompt ++ "Question: " ++ q.getD "" ++ "\n" else prompt) =
      prompt ++ optionalSegment q "Question: " "\n" := by
  cases q with
  | none => simp [pyTruthy, optionalSegment]
  | some s =>
    by_cases hs : s = ""
    · simp [pyTruthy, optionalSegment, hs]
    · simp [pyTruthy, optionalSegment, hs, String.append_assoc]

theorem lang_if (lng : Option String) (pre tail prompt : String) :
    (if pyTruthy lng then pre ++ lng.getD "" ++ tail ++ prompt else prompt) =
      optionalSegment lng pre tail ++ prompt := by
  cases lng with
  | none => simp [pyTruthy, optionalSegment]
  | some s =>
    by_cases hs : s = ""
    · simp [pyTruthy, optionalSegment, hs]
    · simp [pyTruthy, optionalSegment, hs, String.append_assoc]

set_option maxRecDepth 4000 in
/-- Claim C7 counterexample: with the question hint supplied as the empty
string, the prompt built by `explain` carries no question hint at all. -/
theorem explain_prompt_empty_question_counterexample :
    (⟨"s", "snip", some "", none⟩ : SnippetRequest).question.isSome = true ∧
    ¬ ("Question: ".data <:+:
        (explainPrompt ⟨"s", "snip", some "", none⟩ ⟨"a.py", "file", []⟩).data) :=
  ⟨rfl, by decide⟩

/-- Claim C7 (amended): the prompt `explain` sends upstream is the
concatenation of the language hint, the fixed instruction text, the submitted
snippet, the question hint, the session's full stored file text, and the role
and content of every prior history turn in order; each optional hint is
present exactly when it is supplied and non-empty. -/
theorem explain_prompt_structure_amended (store : Store) (req : SnippetRequest)
    (session : Session) (_h : store.lookup req.session_id = some session) :
    explainPrompt req session =
      optionalSegment req.programming_lang "Programming language: " "\n" ++
      ("Explain the following code snippet in context of the full file in concisely:\n" ++
        req.snippet ++ "\n" ++
      optionalSegment req.question "Question: " "\n" ++
      ("\nFull file:\n" ++ session.full_file ++ "\n\n") ++
      historySegment session.history) := by
  simp only [explainPrompt]
  rw [foldl_history, question_if, lang_if]
  simp [String.append_assoc]

set_option maxRecDepth 2000 in
/-- Witness for the amended claim C7 on a session with both hints supplied and
two turns of prior history. -/
theorem explain_prompt_structure_amended_witness :
    explainPrompt ⟨"s", "print(1)", some "why", some "py"⟩
        ⟨"a.py", "file", [⟨"user", "u1"⟩, ⟨"assistant", "a1"⟩]⟩ =
      optionalSegment (some "py") "Programming language: " "\n" ++
      ("Explain the following code snippet in context of the full file in concisely:\n" ++
        "print(1)" ++ "\n" ++
      optionalSegment (some "why") "Question: " "\n" ++
      ("\nFull file:\n" ++ "file" ++ "\n\n") ++
      historySegment [⟨"user", "u1"⟩, ⟨"assistant", "a1"⟩]) :=
  explain_prompt_structure_amended
    [("s", ⟨"a.py", "file", [⟨"user", "u1"⟩, ⟨"assistant", "a1"⟩]⟩)]
    ⟨"s", "print(1)", some "why", some "py"⟩
    ⟨"a.py", "file", [⟨"user", "u1"⟩, ⟨"assistant", "a1"⟩]⟩ rfl

end Neobot
